import Mathlib

/-!
Verification of the BitMexRest REST client (`src/BitMexRest.py`) against its
natural-language specification.  The Python module is shallowly embedded:
pure computations become Lean functions, machine integers are `Nat`/`Int`
with explicit `% 2^32` where 32-bit overflow matters, fallible evaluation
returns `Option`/`Except`, and the module's name environment (which names
the `import` statements at the top of the file actually bind) is modelled
explicitly, because the source refers to names it never imports.
-/

set_option maxRecDepth 40000

/-! ## Bytes, UTF-8 and hex -/

/-- The modulus for 32-bit words, `2^32`. -/
def M32 : Nat := 4294967296

/-- UTF-8 encoding of one Unicode code point (1 to 4 bytes). -/
def utf8Char (c : Char) : List Nat :=
  let n := c.toNat
  if n < 128 then [n]
  else if n < 2048 then
    [192 ||| (n >>> 6), 128 ||| (n &&& 63)]
  else if n < 65536 then
    [224 ||| (n >>> 12), 128 ||| ((n >>> 6) &&& 63), 128 ||| (n &&& 63)]
  else
    [240 ||| (n >>> 18), 128 ||| ((n >>> 12) &&& 63),
     128 ||| ((n >>> 6) &&& 63), 128 ||| (n &&& 63)]

/-- UTF-8 bytes of a string: Python's `bytes(s, 'utf8')`. -/
def utf8Bytes (s : String) : List Nat :=
  s.toList.foldr (fun c acc => utf8Char c ++ acc) []

/-- Lowercase hex digit for a nibble. -/
def hexDigitChar (n : Nat) : Char :=
  Char.ofNat (if n < 10 then 48 + n else 87 + n)

/-- Lowercase hexadecimal rendering of a byte list: Python's `.hexdigest()`
output format. -/
def hexLower (bs : List Nat) : String :=
  String.mk (bs.foldr (fun b acc => hexDigitChar (b / 16 % 16) :: hexDigitChar (b % 16) :: acc) [])

/-! ## SHA-256 (FIPS 180-4) and HMAC (RFC 2104)

`hashlib.sha256` and `hmac.new(..., digestmod=hashlib.sha256)` from the
Python standard library, embedded as executable functions on byte lists. -/

/-- Rotation of a 32-bit word to the right by `n` bit positions. -/
def rotr32 (n x : Nat) : Nat :=
  ((x >>> n) ||| (x <<< (32 - n))) % M32

/-- Bitwise complement of a 32-bit word. -/
def not32 (x : Nat) : Nat := x ^^^ (M32 - 1)

/-- The 64 SHA-256 round constants (FIPS 180-4 §4.2.2), written in
decimal. -/
def sha256K : List Nat :=
  [1116352408, 1899447441, 3049323471, 3921009573, 961987163,
   1508970993, 2453635748, 2870763221, 3624381080, 310598401,
   607225278, 1426881987, 1925078388, 2162078206, 2614888103,
   3248222580, 3835390401, 4022224774, 264347078, 604807628,
   770255983, 1249150122, 1555081692, 1996064986, 2554220882,
   2821834349, 2952996808, 3210313671, 3336571891, 3584528711,
   113926993, 338241895, 666307205, 773529912, 1294757372,
   1396182291, 1695183700, 1986661051, 2177026350, 2456956037,
   2730485921, 2820302411, 3259730800, 3345764771, 3516065817,
   3600352804, 4094571909, 275423344, 430227734, 506948616,
   659060556, 883997877, 958139571, 1322822218, 1537002063,
   1747873779, 1955562222, 2024104815, 2227730452, 2361852424,
   2428436474, 2756734187, 3204031479, 3329325298]

/-- The initial SHA-256 hash state (FIPS 180-4 §5.3.3), in decimal. -/
def sha256H0 : List Nat :=
  [1779033703, 3144134277, 1013904242, 2773480762,
   1359893119, 2600822924, 528734635, 1541459225]

/-- Big-endian bytes (most significant first) of `x`, `n` bytes wide. -/
def toBytesBE (n x : Nat) : List Nat :=
  (List.range n).map fun i => (x >>> (8 * (n - 1 - i))) % 256

/-- SHA-256 message padding: one `0x80` byte, then zeros, then the bit
length as eight big-endian bytes, so the total is a multiple of 64. -/
def sha256pad (msg : List Nat) : List Nat :=
  let padZeros := (119 - msg.length % 64) % 64
  msg ++ [128] ++ List.replicate padZeros 0 ++ toBytesBE 8 (msg.length * 8)

/-- Pack four bytes (big-endian) into one 32-bit word. -/
def word32OfBytes (b0 b1 b2 b3 : Nat) : Nat :=
  ((b0 % 256) <<< 24) + ((b1 % 256) <<< 16) + ((b2 % 256) <<< 8) + (b3 % 256)

/-- The sixteen 32-bit words of one 64-byte block. -/
def blockWords (blk : List Nat) : Array Nat :=
  ((List.range 16).map fun i =>
    word32OfBytes (blk.getD (4 * i) 0) (blk.getD (4 * i + 1) 0)
      (blk.getD (4 * i + 2) 0) (blk.getD (4 * i + 3) 0)).toArray

/-- Extend the 16 block words to the 64-entry message schedule. -/
def sha256schedule (w16 : Array Nat) : Array Nat :=
  (List.range 48).foldl
    (fun w _ =>
      let i := w.size
      let s0 :=
        rotr32 7 (w.getD (i - 15) 0) ^^^ rotr32 18 (w.getD (i - 15) 0) ^^^
          (w.getD (i - 15) 0 >>> 3)
      let s1 :=
        rotr32 17 (w.getD (i - 2) 0) ^^^ rotr32 19 (w.getD (i - 2) 0) ^^^
          (w.getD (i - 2) 0 >>> 10)
      w.push ((w.getD (i - 16) 0 + s0 + w.getD (i - 7) 0 + s1) % M32))
    w16

/-- The eight 32-bit working variables of the SHA-256 compression loop. -/
structure Sha256Vars where
  a : Nat
  b : Nat
  c : Nat
  d : Nat
  e : Nat
  f : Nat
  g : Nat
  h : Nat
deriving DecidableEq

/-- One SHA-256 compression round with schedule word `w` and constant `k`. -/
def sha256round (s : Sha256Vars) (wk : Nat × Nat) : Sha256Vars :=
  let S1 := rotr32 6 s.e ^^^ rotr32 11 s.e ^^^ rotr32 25 s.e
  let ch := (s.e &&& s.f) ^^^ (not32 s.e &&& s.g)
  let t1 := (s.h + S1 + ch + wk.2 + wk.1) % M32
  let S0 := rotr32 2 s.a ^^^ rotr32 13 s.a ^^^ rotr32 22 s.a
  let mj := (s.a &&& s.b) ^^^ (s.a &&& s.c) ^^^ (s.b &&& s.c)
  let t2 := (S0 + mj) % M32
  ⟨(t1 + t2) % M32, s.a, s.b, s.c, (s.d + t1) % M32, s.e, s.f, s.g⟩

/-- Compress one 64-byte block into the running 8-word hash state. -/
def sha256compress (hs : List Nat) (blk : List Nat) : List Nat :=
  let w := sha256schedule (blockWords blk)
  let init : Sha256Vars :=
    ⟨hs.getD 0 0, hs.getD 1 0, hs.getD 2 0, hs.getD 3 0,
     hs.getD 4 0, hs.getD 5 0, hs.getD 6 0, hs.getD 7 0⟩
  let s := ((List.range 64).map fun i => (w.getD i 0, sha256K.getD i 0)).foldl sha256round init
  [(hs.getD 0 0 + s.a) % M32, (hs.getD 1 0 + s.b) % M32, (hs.getD 2 0 + s.c) % M32,
   (hs.getD 3 0 + s.d) % M32, (hs.getD 4 0 + s.e) % M32, (hs.getD 5 0 + s.f) % M32,
   (hs.getD 6 0 + s.g) % M32, (hs.getD 7 0 + s.h) % M32]

/-- SHA-256 digest (32 bytes) of a byte list. -/
def sha256 (msg : List Nat) : List Nat :=
  let padded := sha256pad msg
  let blocks := (List.range (padded.length / 64)).map fun i => (padded.drop (64 * i)).take 64
  (blocks.foldl sha256compress sha256H0).foldr (fun w acc => toBytesBE 4 w ++ acc) []

/-- HMAC-SHA256 (RFC 2104): block size 64; a key longer than one block is
first hashed; the result is zero-padded to the block size. -/
def hmacSha256 (key msg : List Nat) : List Nat :=
  let k0 := if 64 < key.length then sha256 key else key
  let k := k0 ++ List.replicate (64 - k0.length) 0
  let ipadded := k.map fun b => b ^^^ 0x36
  let opadded := k.map fun b => b ^^^ 0x5c
  sha256 (opadded ++ sha256 (ipadded ++ msg))

/-- Python's `hmac.new(bytes(secret,'utf8'), bytes(message,'utf8'),
digestmod=hashlib.sha256).hexdigest()`: the lowercase hexadecimal
HMAC-SHA256 digest of `message` keyed by `secret`, both UTF-8 encoded. -/
def hmacSha256Hexdigest (secret message : String) : String :=
  hexLower (hmacSha256 (utf8Bytes secret) (utf8Bytes message))

/-- SHA-256 of the empty input matches the published digest (sanity check of
the embedding of the hash). -/
theorem sha256_empty_vector :
    hexLower (sha256 []) =
      "e3b0c44298fc1c149afbf4c8996fb92427ae41e4649b934ca495991b7852b855" := by
  decide

/-- RFC 4231 test case 2 for HMAC-SHA256 (sanity check of the embedding of
the keyed hash). -/
theorem hmacSha256_rfc4231_case2 :
    hmacSha256Hexdigest "Jefe" "what do ya want for nothing?" =
      "5bdcc146bf60754e6a042426089575c75a003f089d2739839dec58b964ec3843" := by
  decide

/-! ## The module's name environment

Python resolves a bare name at use time against the function's locals, the
module's globals and the builtins.  `src/BitMexRest.py` lines 1-4 import
`json`, `hashlib`, `requests` and (from `datetime`) `datetime` and
`timezone`; the class statement binds `BitMexRest`.  Nothing binds `hmac`,
yet line 35 uses it, so resolution is modelled explicitly. -/

/-- Names bound at module level of `src/BitMexRest.py`: the four import
statements (lines 1-4) and the class statement (line 6).  `hmac` is not
among them — the module never imports `hmac`. -/
def moduleGlobals : List String :=
  ["json", "hashlib", "requests", "datetime", "timezone", "BitMexRest"]

/-- The Python builtin names the embedded code consults (a sufficient subset
of the `builtins` module).  `hmac` is a standard-library module, not a
builtin, so it resolves only when imported. -/
def pyBuiltins : List String :=
  ["bytes", "str", "int", "float", "bool", "print", "dict", "list", "len",
   "staticmethod", "object", "Exception", "ValueError", "NameError", "TypeError"]

/-- Whether a bare name resolves under the given module globals. -/
def resolves (globals : List String) (n : String) : Bool :=
  globals.contains n || pyBuiltins.contains n

/-- The Python exceptions the embedding distinguishes. -/
inductive PyExc where
  | nameError (missing : String)
deriving DecidableEq

/-! ## Signer -/

/-- Lines 28-38, `generate_signature`, evaluated under a given module-global
name environment.  Line 34 builds `message = verb + url + str(nonce) + data`
(resolving the builtin `str`); line 35 then resolves `hmac` (before any
argument is evaluated), `bytes` and `hashlib`.  A name that fails to resolve
raises `NameError`.  When every name resolves, the result is
`hmac.new(bytes(secret,'utf8'), bytes(message,'utf8'),
digestmod=hashlib.sha256).hexdigest()`. -/
def generate_signature_in (globals : List String) (secret verb url : String)
    (nonce : Int) (data : String) : Except PyExc String :=
  if !resolves globals ("str") then .error (.nameError ("str"))
  else
    let message := verb ++ url ++ toString nonce ++ data
    if !resolves globals ("hmac") then .error (.nameError ("hmac"))
    else if !resolves globals ("bytes") then .error (.nameError ("bytes"))
    else if !resolves globals ("hashlib") then .error (.nameError ("hashlib"))
    else .ok (hmacSha256Hexdigest secret message)

/-- The function `generate_signature` as the module actually runs it: under the module's
own global environment (which lacks `hmac`).  `data` defaults to `''` in the
source for bodiless requests. -/
def generate_signature (secret verb url : String) (nonce : Int)
    (data : String) : Except PyExc String :=
  generate_signature_in moduleGlobals secret verb url nonce data

/-! ## Client construction and header assembly -/

/-- The state `__init__` (lines 8-25) leaves on the instance: the two
credentials and the testnet flag that selects the base URL. -/
structure Client where
  api_key : String
  api_secret : String
  test : Bool
deriving DecidableEq

/-- Lines 20-25: the base URL selected at construction. -/
def baseurlOf (test : Bool) : String :=
  if test then "https://testnet.bitmex.com/api/v1" else "https://www.bitmex.com/api/v1"

/-- The `self.baseurl` of a constructed client. -/
def Client.baseurl (c : Client) : String := baseurlOf c.test

/-- Line 46: `api_url = '/api/v1' + endpoint`, the path the signature is
computed over. -/
def api_url_of (endpoint : String) : String := "/api/v1" ++ endpoint

/-- Lines 40-57, `get_headers`.  The wall-clock nonce of line 48 is passed
in explicitly (it is the only environmental input).  On success the four
headers are returned in source order; a `NameError` from the signer
propagates. -/
def get_headers_in (globals : List String) (c : Client) (nonce : Int)
    (verb endpoint data : String) : Except PyExc (List (String × String)) :=
  (generate_signature_in globals c.api_secret verb (api_url_of endpoint) nonce data).map
    fun signature =>
      [("api-expires", toString nonce), ("api-key", c.api_key),
       ("api-signature", signature), ("Content-Type", "application/json")]

/-- The function `get_headers` under the module's own global environment. -/
def get_headers (c : Client) (nonce : Int) (verb endpoint data : String) :
    Except PyExc (List (String × String)) :=
  get_headers_in moduleGlobals c nonce verb endpoint data

/-! ## JSON values and serialization

Dynamic Python values placed in JSON bodies.  A float is carried by the
decimal text it serializes as (`jnum`), since bit-exact float formatting is
outside the scope of the claims; no claim inspects a numeric value. -/

inductive JVal where
  | jstr (s : String)
  | jint (n : Int)
  | jnum (lit : String)
  | jbool (b : Bool)
  | jnull
deriving DecidableEq

/-- Four lowercase hex digits of `n % 65536`. -/
def hex4 (n : Nat) : List Char :=
  [hexDigitChar (n / 4096 % 16), hexDigitChar (n / 256 % 16),
   hexDigitChar (n / 16 % 16), hexDigitChar (n % 16)]

/-- The `json.dumps` escaping of one character with the default
`ensure_ascii=True`: `"` and `\` are backslash-escaped, the short escapes
cover backspace, tab, newline, form feed and carriage return, other control
characters and every non-ASCII character become `\uXXXX` (a surrogate pair
beyond the BMP). -/
def jsonEscapeChar (c : Char) : List Char :=
  let n := c.toNat
  if n = 34 then ['\\', '"']
  else if n = 92 then ['\\', '\\']
  else if n = 8 then ['\\', 'b']
  else if n = 9 then ['\\', 't']
  else if n = 10 then ['\\', 'n']
  else if n = 12 then ['\\', 'f']
  else if n = 13 then ['\\', 'r']
  else if n < 32 then '\\' :: 'u' :: hex4 n
  else if n < 127 then [c]
  else if n < 65536 then '\\' :: 'u' :: hex4 n
  else
    ('\\' :: 'u' :: hex4 (55296 + (n - 65536) / 1024)) ++
      ('\\' :: 'u' :: hex4 (56320 + (n - 65536) % 1024))

/-- The `json.dumps` escaping of a string body. -/
def jsonEscape (s : String) : String :=
  String.mk (s.toList.foldr (fun c acc => jsonEscapeChar c ++ acc) [])

/-- Serialization of one JSON value under `json.dumps` defaults. -/
def jvalDumps : JVal → String
  | .jstr s => "\"" ++ jsonEscape s ++ "\""
  | .jint n => toString n
  | .jnum lit => lit
  | .jbool b => if b then "true" else "false"
  | .jnull => "null"

/-- The `json.dumps` of a string-keyed dict with the default separators
`', '` and `': '`. -/
def jsonDumps (d : List (String × JVal)) : String :=
  "\x7b" ++
    String.intercalate (", ")
      (d.map fun kv => "\"" ++ jsonEscape kv.1 ++ "\": " ++ jvalDumps kv.2) ++
    "\x7d"

/-- Whether a JSON object carries a field named `k`. -/
def hasField (d : List (String × JVal)) (k : String) : Bool :=
  (d.map Prod.fst).contains k

/-! ## Order construction -/

/-- Lines 74-80: the `order` dict built by `post_order`.  `price` is a
caller-supplied Python value stored unchanged; `ord_type` defaults to
`'Limit'` at the call boundary. -/
def post_order_body (symbol : String) (order_qty : Int) (price : JVal)
    (side ord_type : String) : List (String × JVal) :=
  [("symbol", .jstr symbol), ("orderQty", .jint order_qty), ("price", price),
   ("side", .jstr side), ("ordType", .jstr ord_type)]

/-- Lines 130-135: the `order` dict built by `place_market_order` — no
`price` key, `ordType` fixed to `'Market'`. -/
def place_market_order_body (symbol : String) (order_qty : Int)
    (side : String) : List (String × JVal) :=
  [("symbol", .jstr symbol), ("orderQty", .jint order_qty),
   ("side", .jstr side), ("ordType", .jstr ("Market"))]

/-! ## The HTTP requests each operation issues -/

/-- One outgoing HTTP request as handed to the `requests` library: method,
full URL, explicit headers, query params, body, and timeout when given. -/
structure HttpRequest where
  method : String
  url : String
  headers : List (String × String)
  params : List (String × JVal)
  body : Option String
  timeoutSec : Option Nat
deriving DecidableEq

/-- Line 72: `endpoint = '/order'`. -/
def post_order_endpoint : String := "/order"

/-- Line 102: `endpoint = '/order/all'`. -/
def cancel_all_orders_endpoint : String := "/order/all"

/-- Line 189: `path = '/trade/bucketed'`. -/
def get_ohlc_path : String := "/trade/bucketed"

/-- Line 84: the URL `post_order` posts to. -/
def post_order_url (c : Client) : String := c.baseurl ++ post_order_endpoint

/-- Line 139: the URL `place_market_order` posts to (same endpoint). -/
def place_market_order_url (c : Client) : String := c.baseurl ++ post_order_endpoint

/-- Line 107: the URL `cancel_all_orders` sends DELETE to. -/
def cancel_all_orders_url (c : Client) : String := c.baseurl ++ cancel_all_orders_endpoint

/-- Line 198: the URL `get_ohlc` queries. -/
def get_ohlc_url (c : Client) : String := c.baseurl ++ get_ohlc_path

/-- Lines 72-84: the request `post_order` builds — body from the order
dict, headers from `get_headers`, POST to `baseurl + endpoint`.  A signer
`NameError` propagates before any request exists. -/
def post_order_request_in (globals : List String) (c : Client) (nonce : Int)
    (symbol : String) (order_qty : Int) (price : JVal) (side ord_type : String) :
    Except PyExc HttpRequest :=
  let data := jsonDumps (post_order_body symbol order_qty price side ord_type)
  (get_headers_in globals c nonce ("POST") post_order_endpoint data).map
    fun headers =>
      { method := "POST", url := post_order_url c, headers := headers,
        params := [], body := some data, timeoutSec := none }

/-- Lines 128-139: the request `place_market_order` builds. -/
def place_market_order_request_in (globals : List String) (c : Client)
    (nonce : Int) (symbol : String) (order_qty : Int) (side : String) :
    Except PyExc HttpRequest :=
  let data := jsonDumps (place_market_order_body symbol order_qty side)
  (get_headers_in globals c nonce ("POST") post_order_endpoint data).map
    fun headers =>
      { method := "POST", url := place_market_order_url c, headers := headers,
        params := [], body := some data, timeoutSec := none }

/-- Lines 102-107: the request `cancel_all_orders` builds — `data = ''` is
signed but `requests.delete` is called without a body. -/
def cancel_all_orders_request_in (globals : List String) (c : Client)
    (nonce : Int) : Except PyExc HttpRequest :=
  (get_headers_in globals c nonce ("DELETE") cancel_all_orders_endpoint ("")).map
    fun headers =>
      { method := "DELETE", url := cancel_all_orders_url c, headers := headers,
        params := [], body := none, timeoutSec := none }

/-- Lines 189-201: the request `get_ohlc` issues — `requests.get(url,
params=payload, timeout=10)` with no `headers` argument at all: the call is
unsigned and `get_headers` is never invoked on this path. -/
def get_ohlc_request (c : Client) (ticker timeframe : String) : HttpRequest :=
  { method := "GET", url := get_ohlc_url c,
    headers := [],
    params := [("binSize", .jstr timeframe), ("partial", .jbool false),
               ("symbol", .jstr ticker), ("count", .jint 100),
               ("reverse", .jbool true)],
    body := none, timeoutSec := some 10 }

/-! ## Response handling of the order operations -/

/-- What the three order/cancel operations read off an HTTP response:
the status code, the value `response.json()` parses to, and the raw text
used in the error message. -/
structure PyResponse where
  status_code : Nat
  jsonVal : JVal
  text : String
deriving DecidableEq

/-- Lines 86-90: `post_order`'s handling of the response — parsed JSON on
status 200, otherwise print `Error: <status> - <text>` and return `None`.
The result pairs the returned value with the printed lines. -/
def post_order_handle_response (r : PyResponse) : Option JVal × List String :=
  if r.status_code = 200 then (some r.jsonVal, [])
  else (none, ["Error: " ++ toString r.status_code ++ " - " ++ r.text])

/-- Lines 109-113: `cancel_all_orders`'s handling of the response
(the source repeats the same block). -/
def cancel_all_orders_handle_response (r : PyResponse) : Option JVal × List String :=
  if r.status_code = 200 then (some r.jsonVal, [])
  else (none, ["Error: " ++ toString r.status_code ++ " - " ++ r.text])

/-- Lines 141-145: `place_market_order`'s handling of the response
(the source repeats the same block). -/
def place_market_order_handle_response (r : PyResponse) : Option JVal × List String :=
  if r.status_code = 200 then (some r.jsonVal, [])
  else (none, ["Error: " ++ toString r.status_code ++ " - " ++ r.text])

/-- The path component of an absolute `https` URL: everything from the
first `/` after the authority. -/
def pathOfUrl (u : String) : String :=
  let cs := u.toList
  let rest :=
    if cs.take 8 = ('h' :: 't' :: 't' :: 'p' :: 's' :: ':' :: '/' :: '/' :: [])
    then cs.drop 8 else cs
  String.mk (rest.dropWhile fun c => c ≠ '/')

/-! ## Timestamps: `datetime.fromisoformat` and epoch conversion

`format_ohlcv` (line 165) parses each bucket's ISO-8601 timestamp with
`datetime.fromisoformat(item['timestamp'].replace('Z', '+00:00'))` and
converts it with `.timestamp() * 1000` truncated by `int(...)`.  The parser
below embeds the subset of `fromisoformat` these strings exercise:
`YYYY-MM-DD`, optionally followed by a `T` or space separator and
`HH:MM[:SS[.f{1..6}]]`, optionally followed by a `±HH:MM` offset.  Real
arithmetic is modelled exactly (floats are not re-rounded). -/

/-- A parsed `datetime` value: civil fields plus the UTC offset in minutes
(`none` for a naive datetime, which Python interprets in local time). -/
structure PyDateTime where
  year : Nat
  month : Nat
  day : Nat
  hour : Nat
  minute : Nat
  second : Nat
  microsecond : Nat
  offMin : Option Int
deriving DecidableEq

/-- Decimal digit value of a character, if any. -/
def digitVal (c : Char) : Option Nat :=
  if '0' ≤ c ∧ c ≤ '9' then some (c.toNat - 48) else none

/-- Parse exactly `n` decimal digits, accumulating into `acc`. -/
def parseDigits : Nat → Nat → List Char → Option (Nat × List Char)
  | 0, acc, l => some (acc, l)
  | k + 1, acc, l =>
    match l with
    | [] => none
    | c :: rest =>
      match digitVal c with
      | some d => parseDigits k (acc * 10 + d) rest
      | none => none

/-- Consume one expected character. -/
def expectChar (c : Char) : List Char → Option (List Char)
  | [] => none
  | x :: rest => if x = c then some rest else none

/-- Leading run of decimal digits and the remainder. -/
def takeDigits (l : List Char) : List Char × List Char :=
  (l.takeWhile (fun c => (digitVal c).isSome), l.dropWhile (fun c => (digitVal c).isSome))

/-- Numeric value of a digit run. -/
def digitsToNat (ds : List Char) : Nat :=
  ds.foldl (fun acc c => acc * 10 + (digitVal c).getD 0) 0

/-- Gregorian leap-year test. -/
def isLeapYear (y : Nat) : Bool :=
  y % 4 = 0 && (y % 100 ≠ 0 || y % 400 = 0)

/-- Days in a month of the proleptic Gregorian calendar. -/
def daysInMonth (y m : Nat) : Nat :=
  if m = 2 then (if isLeapYear y then 29 else 28)
  else if m = 4 ∨ m = 6 ∨ m = 9 ∨ m = 11 then 30
  else 31

/-- Fractional-second digits (1 to 6, per `fromisoformat`) scaled to
microseconds: `k` digits are worth `value * 10^(6-k)`. -/
def fracToMicro (ds : List Char) : Option Nat :=
  if ds.length = 0 ∨ 6 < ds.length then none
  else some (digitsToNat ds * 10 ^ (6 - ds.length))

/-- Parse the trailing `±HH:MM` UTC offset; the empty remainder means a
naive datetime. -/
def parseOffset (l : List Char) : Option (Option Int) :=
  match l with
  | [] => some none
  | sign :: rest =>
    if sign = '+' ∨ sign = '-' then
      match parseDigits 2 0 rest with
      | none => none
      | some (oh, rest) =>
        match expectChar ':' rest with
        | none => none
        | some rest =>
          match parseDigits 2 0 rest with
          | none => none
          | some (om, rest) =>
            if rest = [] ∧ oh ≤ 23 ∧ om ≤ 59 then
              let total : Int := oh * 60 + om
              some (some (if sign = '-' then -total else total))
            else none
    else none

/-- Parse `HH:MM[:SS[.frac]][±HH:MM]` after the separator. -/
def parseTimePart (y mo d : Nat) (l : List Char) : Option PyDateTime :=
  match parseDigits 2 0 l with
  | none => none
  | some (hh, l) =>
    match expectChar ':' l with
    | none => none
    | some l =>
      match parseDigits 2 0 l with
      | none => none
      | some (mi, l) =>
        let secFracOff : Option (Nat × Nat × List Char) :=
          match expectChar ':' l with
          | none => some (0, 0, l)
          | some l =>
            match parseDigits 2 0 l with
            | none => none
            | some (ss, l) =>
              match expectChar '.' l with
              | none => some (ss, 0, l)
              | some l =>
                let (ds, l) := takeDigits l
                match fracToMicro ds with
                | none => none
                | some us => some (ss, us, l)
        match secFracOff with
        | none => none
        | some (ss, us, l) =>
          match parseOffset l with
          | none => none
          | some off =>
            if hh ≤ 23 ∧ mi ≤ 59 ∧ ss ≤ 59 then
              some ⟨y, mo, d, hh, mi, ss, us, off⟩
            else none

/-- Python's `datetime.fromisoformat` on the character list. -/
def fromisoformatList (l : List Char) : Option PyDateTime :=
  match parseDigits 4 0 l with
  | none => none
  | some (y, l) =>
    match expectChar '-' l with
    | none => none
    | some l =>
      match parseDigits 2 0 l with
      | none => none
      | some (mo, l) =>
        match expectChar '-' l with
        | none => none
        | some l =>
          match parseDigits 2 0 l with
          | none => none
          | some (d, l) =>
            if 1 ≤ y ∧ 1 ≤ mo ∧ mo ≤ 12 ∧ 1 ≤ d ∧ d ≤ daysInMonth y mo then
              match l with
              | [] => some ⟨y, mo, d, 0, 0, 0, 0, none⟩
              | sep :: rest =>
                if sep = 'T' ∨ sep = ' ' then parseTimePart y mo d rest else none
            else none

/-- Python's `datetime.fromisoformat` on a string. -/
def fromisoformat (s : String) : Option PyDateTime :=
  fromisoformatList s.toList

/-- Days between a proleptic Gregorian civil date and 1970-01-01
(Howard Hinnant's `days_from_civil`). -/
def daysFromCivil (y : Int) (m d : Nat) : Int :=
  let yAdj : Int := if m ≤ 2 then y - 1 else y
  let era : Int := Int.fdiv yAdj 400
  let yoe : Int := yAdj - era * 400
  let mp : Nat := if 2 < m then m - 3 else m + 9
  let doy : Nat := (153 * mp + 2) / 5 + (d - 1)
  let doe : Int := yoe * 365 + Int.fdiv yoe 4 - Int.fdiv yoe 100 + doy
  era * 146097 + doe - 719468

/-- Python's `datetime.timestamp()` scaled to microseconds, exactly: seconds since
the epoch times `10^6` plus the microsecond field.  An aware datetime uses
its own offset; a naive one uses the process-local zone, modelled as the
fixed offset `localOffMin` minutes. -/
def pyTimestampMicro (localOffMin : Int) (dt : PyDateTime) : Int :=
  let off := dt.offMin.getD localOffMin
  (daysFromCivil (dt.year : Int) dt.month dt.day * 86400 +
      (dt.hour : Int) * 3600 + (dt.minute : Int) * 60 + (dt.second : Int) -
      off * 60) * 1000000 + (dt.microsecond : Int)

/-- Line 165's millisecond value: `int(dt.timestamp() * 1000)` — exact
division of the microsecond total by 1000, truncated toward zero as
Python's `int()` does. -/
def pyTimestampMillis (localOffMin : Int) (dt : PyDateTime) : Int :=
  Int.tdiv (pyTimestampMicro localOffMin dt) 1000

/-- Python's `str.replace('Z', '+00:00')` on line 165: every occurrence of
the single character `Z` becomes `+00:00`. -/
def replaceZwithOffsetList (l : List Char) : List Char :=
  l.foldr
    (fun c acc =>
      if c = 'Z' then '+' :: '0' :: '0' :: ':' :: '0' :: '0' :: acc else c :: acc)
    []

/-- The call `timestamp.replace('Z', '+00:00')` as a string function. -/
def replaceZwithOffset (s : String) : String :=
  String.mk (replaceZwithOffsetList s.toList)

/-! ## `format_ohlcv` and `get_ohlc` -/

/-- One bucket of the exchange's `/trade/bucketed` JSON response, holding
the fields `format_ohlcv` reads.  The five numeric fields are opaque JSON
values; the timestamp is the raw string. -/
structure Bucket where
  timestamp : String
  «open» : JVal
  high : JVal
  low : JVal
  close : JVal
  volume : JVal
deriving DecidableEq

/-- One normalized OHLCV record, fields in the order the source dict writes
them (lines 158-167). -/
structure Record where
  «open» : JVal
  close : JVal
  high : JVal
  low : JVal
  volume : JVal
  time : Int
deriving DecidableEq

/-- Lines 147-171, `format_ohlcv`: each bucket maps to a record copying
`open`, `close`, `high`, `low`, `volume` unchanged, with `time` from the
parsed timestamp.  A timestamp `fromisoformat` rejects raises `ValueError`
in Python, so the whole call returns `none` in that case. -/
def format_ohlcv (localOffMin : Int) (ohlcv_data : List Bucket) :
    Option (List Record) :=
  ohlcv_data.mapM fun item =>
    (fromisoformat (replaceZwithOffset item.timestamp)).map fun dt =>
      { «open» := item.«open», close := item.close, high := item.high,
        low := item.low, volume := item.volume,
        time := pyTimestampMillis localOffMin dt }

/-- Epoch milliseconds of a UTC civil time, following the spec's words:
the timestamp parsed as UTC and converted to milliseconds since the epoch
(sub-millisecond digits truncated toward zero, as `int(... * 1000)` is). -/
def specUtcEpochMillis (y mo d h mi s us : Nat) : Int :=
  Int.tdiv
    ((daysFromCivil (y : Int) mo d * 86400 +
        (h : Int) * 3600 + (mi : Int) * 60 + (s : Int)) * 1000000 + (us : Int))
    1000

/-- The two error conditions `get_ohlc` raises.

Modelled from the spec: the classes `ExchangeConnectionError` and
`ExchangeRequestTimeOut` are raised on lines 205 and 208 of
`src/BitMexRest.py` but defined nowhere under `src/`; §7/§9 of the spec
describe them as two distinct sibling error kinds carrying a message. -/
inductive ExchangeError where
  | connectionError (msg : String)
  | requestTimeOut (msg : String)
deriving DecidableEq

/-- What the transport layer does during `get_ohlc`'s `try` block: either
`requests.get` returns and `response.json()` parses to a bucket list, or
`response.json()` fails (`JSONDecodeError`), or `requests.get` raises
`ConnectionError`, `ReadTimeout`, or another `Timeout`. -/
inductive TransportEvent where
  | ok (buckets : List Bucket)
  | jsonDecodeError
  | connectionError
  | readTimeout
  | timeout
deriving DecidableEq

/-- The outcome of one `get_ohlc` call. -/
inductive GetOhlcResult where
  | ok (records : List Record)
  | connError (msg : String)
  | timeoutError (msg : String)
  | valueError
deriving DecidableEq

/-- Lines 200-208: the `try`/`except` classification.  `ConnectionError`
and `JSONDecodeError` map to the connection condition, `ReadTimeout` and
`Timeout` to the timeout condition; a timestamp `ValueError` from
`format_ohlcv` matches neither handler and propagates. -/
def get_ohlc_run (localOffMin : Int) (ev : TransportEvent) : GetOhlcResult :=
  match ev with
  | .ok buckets =>
    match format_ohlcv localOffMin buckets with
    | some records => .ok records
    | none => .valueError
  | .jsonDecodeError =>
    .connError ("Failed to establish a connection to Bitmex. There is an error on their end")
  | .connectionError =>
    .connError ("Failed to establish a connection to Bitmex. There is an error on their end")
  | .readTimeout => .timeoutError ("Connection with Bitmex has timed out")
  | .timeout => .timeoutError ("Connection with Bitmex has timed out")

/-- Whether a `get_ohlc` outcome is the connection-failure condition. -/
def GetOhlcResult.isConnError : GetOhlcResult → Bool
  | .connError _ => true
  | _ => false

/-- Whether a `get_ohlc` outcome is the timeout-failure condition. -/
def GetOhlcResult.isTimeoutError : GetOhlcResult → Bool
  | .timeoutError _ => true
  | _ => false

/-! ## Helper lemmas -/

/-- A successful `mapM` over `Option` yields a list of the same length
whose `i`-th entry is the successful image of the `i`-th input. -/
theorem mapM_option_spec {α β : Type} (F : α → Option β) :
    ∀ (l : List α) (out : List β), l.mapM F = some out →
      out.length = l.length ∧
      ∀ (i : Nat) (hi : i < l.length) (ho : i < out.length),
        F (l.get ⟨i, hi⟩) = some (out.get ⟨i, ho⟩) := by
  intro l
  induction l with
  | nil =>
    intro out h
    simp only [List.mapM_nil, pure, Option.some.injEq] at h
    subst h
    exact ⟨rfl, fun i hi => absurd hi (Nat.not_lt_zero i)⟩
  | cons a as ih =>
    intro out h
    rw [List.mapM_cons] at h
    rcases hF : F a with _ | b <;> rw [hF] at h
    · exact Option.noConfusion h
    · rcases hRest : as.mapM F with _ | bs <;> rw [hRest] at h
      · exact Option.noConfusion h
      · simp only [Option.pure_def, Option.bind_eq_bind, Option.some_bind,
          Option.some.injEq] at h
        subst h
        obtain ⟨hlen, hget⟩ := ih bs hRest
        refine ⟨by simpa using hlen, ?_⟩
        intro i hi ho
        cases i with
        | zero => simpa using hF
        | succ j =>
          exact hget j (Nat.lt_of_succ_lt_succ hi) (Nat.lt_of_succ_lt_succ ho)

/-- The map `replace('Z', '+00:00')` distributes over list append. -/
theorem replaceZ_append (l m : List Char) :
    replaceZwithOffsetList (l ++ m) =
      replaceZwithOffsetList l ++ replaceZwithOffsetList m := by
  induction l with
  | nil => rfl
  | cons c cs ih =>
    simp only [List.cons_append, replaceZwithOffsetList, List.foldr_cons] at *
    rw [ih]
    by_cases hc : c = 'Z' <;> simp [hc]

/-- The map `replace('Z', '+00:00')` leaves a `Z`-free character list unchanged. -/
theorem replaceZ_of_not_contains (l : List Char) (h : l.contains 'Z' = false) :
    replaceZwithOffsetList l = l := by
  induction l with
  | nil => rfl
  | cons c cs ih =>
    simp only [List.contains_cons, Bool.or_eq_false_iff, beq_eq_false_iff_ne] at h
    simp only [replaceZwithOffsetList, List.foldr_cons]
    rw [if_neg (Ne.symm h.1)]
    exact congrArg (c :: ·) (ih h.2)

/-! ## Claim theorems -/

/-- C1: the claim says `generate_signature` returns the lowercase
hexadecimal HMAC-SHA256 digest of `verb + path + str(nonce) + body` keyed
by the UTF-8 bytes of `secret`.  At the concrete input below the call
instead raises `NameError` — line 35 refers to `hmac`, which lines 1-4
never import — so no digest is ever returned. -/
theorem C1_generate_signature_raises_not_digest :
    generate_signature ("k3y") ("POST") ("/api/v1/order") 1609459200000 ("") =
      Except.error (PyExc.nameError ("hmac")) := rfl

/-- C2: the claim says signing terminates normally for every input and
never fails with an unresolved-name fault.  In the code every call of
`generate_signature`, whatever the secret, verb, path, nonce and body,
raises `NameError` on the unresolvable name `hmac`. -/
theorem C2_generate_signature_always_nameError (secret verb url : String)
    (nonce : Int) (data : String) :
    generate_signature secret verb url nonce data =
      Except.error (PyExc.nameError ("hmac")) := rfl

/-- C3: for each order/cancel operation and both base URLs, the path the
signature is computed over (`'/api/v1' + endpoint`, line 46) equals the
path component of the URL the request is sent to (`baseurl + endpoint`). -/
theorem C3_signed_path_equals_request_path (c : Client) :
    pathOfUrl (post_order_url c) = api_url_of post_order_endpoint ∧
    pathOfUrl (place_market_order_url c) = api_url_of post_order_endpoint ∧
    pathOfUrl (cancel_all_orders_url c) = api_url_of cancel_all_orders_endpoint := by
  obtain ⟨k, s, t⟩ := c
  have hb : Client.baseurl ⟨k, s, t⟩ = baseurlOf t := rfl
  cases t <;>
    simp only [post_order_url, place_market_order_url, cancel_all_orders_url, hb] <;>
    exact ⟨by decide, by decide, by decide⟩

/-- C4: a successful `format_ohlcv` returns exactly as many records as
input buckets, in input order; each record copies `open`, `close`, `high`,
`low`, `volume` unchanged from its bucket, and its `time` is the
epoch-millisecond value of the bucket's ISO-8601 UTC timestamp —
independently of the process-local zone `localOffMin`. -/
theorem C4_format_ohlcv_correct (localOffMin : Int) (data : List Bucket)
    (out : List Record) (h : format_ohlcv localOffMin data = some out) :
    out.length = data.length ∧
    (∀ (i : Nat) (hi : i < data.length) (ho : i < out.length),
      (out.get ⟨i, ho⟩).«open» = (data.get ⟨i, hi⟩).«open» ∧
      (out.get ⟨i, ho⟩).close = (data.get ⟨i, hi⟩).close ∧
      (out.get ⟨i, ho⟩).high = (data.get ⟨i, hi⟩).high ∧
      (out.get ⟨i, ho⟩).low = (data.get ⟨i, hi⟩).low ∧
      (out.get ⟨i, ho⟩).volume = (data.get ⟨i, hi⟩).volume) ∧
    (∀ (i : Nat) (hi : i < data.length) (ho : i < out.length) (dt : PyDateTime),
      fromisoformat (replaceZwithOffset ((data.get ⟨i, hi⟩).timestamp)) = some dt →
      dt.offMin = some 0 →
      (out.get ⟨i, ho⟩).time =
        specUtcEpochMillis dt.year dt.month dt.day dt.hour dt.minute dt.second
          dt.microsecond) := by
  unfold format_ohlcv at h
  obtain ⟨hlen, hget⟩ := mapM_option_spec _ data out h
  refine ⟨hlen, ?_, ?_⟩
  · intro i hi ho
    obtain ⟨dt, _, hrec⟩ := Option.map_eq_some'.mp (hget i hi ho)
    rw [← hrec]
    exact ⟨rfl, rfl, rfl, rfl, rfl⟩
  · intro i hi ho dt hparse hoff
    obtain ⟨dt', hdt', hrec⟩ := Option.map_eq_some'.mp (hget i hi ho)
    rw [hdt'] at hparse
    have hdd : dt' = dt := Option.some.inj hparse
    rw [← hrec]
    show pyTimestampMillis localOffMin dt' = _
    rw [hdd]
    unfold pyTimestampMillis pyTimestampMicro specUtcEpochMillis
    rw [hoff]
    simp only [Option.getD_some]
    congr 1
    ring

/-- Concrete instance of C4's theorem, at the spec's own example timestamp
and with a non-UTC local zone (UTC+9): one bucket maps to one record with
`time = 1609459200000` and every other field copied. -/
theorem C4_format_ohlcv_witness :
    format_ohlcv 540
        [⟨"2021-01-01T00:00:00.000Z", JVal.jint 100, JVal.jint 120, JVal.jint 90,
          JVal.jint 110, JVal.jint 1000⟩] =
      some [⟨JVal.jint 100, JVal.jint 110, JVal.jint 120, JVal.jint 90,
        JVal.jint 1000, 1609459200000⟩] ∧
    (1609459200000 : Int) = specUtcEpochMillis 2021 1 1 0 0 0 0 := by
  have h : format_ohlcv 540
      [⟨"2021-01-01T00:00:00.000Z", JVal.jint 100, JVal.jint 120, JVal.jint 90,
        JVal.jint 110, JVal.jint 1000⟩] =
      some [⟨JVal.jint 100, JVal.jint 110, JVal.jint 120, JVal.jint 90,
        JVal.jint 1000, 1609459200000⟩] := by decide
  have hmain := C4_format_ohlcv_correct 540 _ _ h
  refine ⟨h, ?_⟩
  have ht := hmain.2.2 0 (by decide) (by decide) ⟨2021, 1, 1, 0, 0, 0, 0, some 0⟩
    (by decide) rfl
  exact ht

/-- C5: `get_ohlc` maps `ConnectionError` and `JSONDecodeError` to the
connection-failure condition and `ReadTimeout`/`Timeout` to the
timeout-failure condition; each transport fault raises exactly one of the
two, never the other. -/
theorem C5_get_ohlc_error_taxonomy (localOffMin : Int) :
    (get_ohlc_run localOffMin TransportEvent.connectionError).isConnError = true ∧
    (get_ohlc_run localOffMin TransportEvent.connectionError).isTimeoutError = false ∧
    (get_ohlc_run localOffMin TransportEvent.jsonDecodeError).isConnError = true ∧
    (get_ohlc_run localOffMin TransportEvent.jsonDecodeError).isTimeoutError = false ∧
    (get_ohlc_run localOffMin TransportEvent.readTimeout).isTimeoutError = true ∧
    (get_ohlc_run localOffMin TransportEvent.readTimeout).isConnError = false ∧
    (get_ohlc_run localOffMin TransportEvent.timeout).isTimeoutError = true ∧
    (get_ohlc_run localOffMin TransportEvent.timeout).isConnError = false :=
  ⟨rfl, rfl, rfl, rfl, rfl, rfl, rfl, rfl⟩

/-- C6: each of `post_order`, `cancel_all_orders` and `place_market_order`
returns the parsed JSON on HTTP 200 with nothing printed, and on any other
status prints the error line and returns `None` instead of raising. -/
theorem C6_order_ops_status_handling (r : PyResponse) :
    (r.status_code = 200 →
      post_order_handle_response r = (some r.jsonVal, []) ∧
      cancel_all_orders_handle_response r = (some r.jsonVal, []) ∧
      place_market_order_handle_response r = (some r.jsonVal, [])) ∧
    (r.status_code ≠ 200 →
      post_order_handle_response r =
        (none, ["Error: " ++ toString r.status_code ++ " - " ++ r.text]) ∧
      cancel_all_orders_handle_response r =
        (none, ["Error: " ++ toString r.status_code ++ " - " ++ r.text]) ∧
      place_market_order_handle_response r =
        (none, ["Error: " ++ toString r.status_code ++ " - " ++ r.text])) := by
  constructor <;> intro h <;>
    simp [post_order_handle_response, cancel_all_orders_handle_response,
      place_market_order_handle_response, h]

/-- Concrete instance of C6's theorem: a 200 response returns its JSON
silently and a 503 response returns `None` with the printed error line. -/
theorem C6_order_ops_status_handling_witness :
    post_order_handle_response ⟨200, JVal.jint 7, ""⟩ = (some (JVal.jint 7), []) ∧
    post_order_handle_response ⟨503, JVal.jnull, "overloaded"⟩ =
      (none, ["Error: 503 - overloaded"]) :=
  ⟨((C6_order_ops_status_handling ⟨200, JVal.jint 7, ""⟩).1 rfl).1,
   ((C6_order_ops_status_handling ⟨503, JVal.jnull, "overloaded"⟩).2
      (by decide)).1⟩

/-- C7: whatever the arguments, the market-order body has no `price` field
and the (limit) order body built by `post_order` always has one. -/
theorem C7_price_field_presence (symbol : String) (order_qty : Int)
    (price : JVal) (side ord_type : String) :
    hasField (place_market_order_body symbol order_qty side) ("price") = false ∧
    hasField (post_order_body symbol order_qty price side ord_type) ("price") = true :=
  ⟨rfl, rfl⟩

/-- C8 counterexample: the market-data request `get_ohlc` issues carries no
headers whatsoever — in particular no `api-signature` — so it is not sent
with the signed headers, contrary to the claim. -/
theorem C8_counterexample_get_ohlc_unsigned :
    (get_ohlc_request ⟨"key", "secret", true⟩ ("XBTUSD") ("1h")).headers = [] ∧
    ((get_ohlc_request ⟨"key", "secret", true⟩ ("XBTUSD") ("1h")).headers.map
        Prod.fst).contains ("api-signature") = false :=
  ⟨rfl, rfl⟩

/-- C8 amended: the three order/cancel operations attach exactly the
headers `get_headers` produces (the four signed headers, whenever signing
succeeds), while `get_ohlc` issues its GET with no headers at all. -/
theorem C8_amended_header_attachment (globals : List String) (c : Client)
    (nonce : Int) (symbol : String) (order_qty : Int) (price : JVal)
    (side ord_type ticker timeframe : String) :
    (post_order_request_in globals c nonce symbol order_qty price side ord_type).map
        HttpRequest.headers =
      get_headers_in globals c nonce ("POST") post_order_endpoint
        (jsonDumps (post_order_body symbol order_qty price side ord_type)) ∧
    (place_market_order_request_in globals c nonce symbol order_qty side).map
        HttpRequest.headers =
      get_headers_in globals c nonce ("POST") post_order_endpoint
        (jsonDumps (place_market_order_body symbol order_qty side)) ∧
    (cancel_all_orders_request_in globals c nonce).map HttpRequest.headers =
      get_headers_in globals c nonce ("DELETE") cancel_all_orders_endpoint ("") ∧
    (get_headers_in globals c nonce ("POST") post_order_endpoint
        (jsonDumps (post_order_body symbol order_qty price side ord_type))).map
        (fun hdrs => hdrs.map Prod.fst) =
      (generate_signature_in globals c.api_secret ("POST")
          (api_url_of post_order_endpoint) nonce
          (jsonDumps (post_order_body symbol order_qty price side ord_type))).map
        (fun _ => ["api-expires", "api-key", "api-signature", "Content-Type"]) ∧
    (get_ohlc_request c ticker timeframe).headers = [] := by
  refine ⟨?_, ?_, ?_, ?_, rfl⟩ <;>
    simp only [post_order_request_in, place_market_order_request_in,
      cancel_all_orders_request_in, get_headers_in] <;>
    cases generate_signature_in globals c.api_secret _ _ nonce _ <;> rfl

/-- C9: a timestamp that lacks the `Z` suffix but carries the equivalent
explicit `+00:00` UTC offset normalizes to the same record list as its
`Z`-suffixed form, and a timestamp parsed with offset `+00:00` yields an
epoch-millisecond value independent of the process-local zone. -/
theorem C9_offset_instead_of_Z_equivalent (s : String)
    (hz : s.toList.contains 'Z' = false) (localOffMin : Int)
    (vo vh vl vc vv : JVal) :
    format_ohlcv localOffMin [⟨s ++ "+00:00", vo, vh, vl, vc, vv⟩] =
      format_ohlcv localOffMin [⟨s ++ "Z", vo, vh, vl, vc, vv⟩] ∧
    (∀ (dt : PyDateTime) (lo1 lo2 : Int), dt.offMin = some 0 →
      pyTimestampMillis lo1 dt = pyTimestampMillis lo2 dt) := by
  constructor
  · obtain ⟨sl⟩ := s
    have h1 : replaceZwithOffset (String.mk sl ++ ("+00:00")) =
        String.mk sl ++ ("+00:00") := by
      show String.mk (replaceZwithOffsetList (sl ++ ('+' :: '0' :: '0' :: ':' :: '0' :: '0' :: []))) = _
      rw [replaceZ_append, replaceZ_of_not_contains sl hz]
      rfl
    have h2 : replaceZwithOffset (String.mk sl ++ ("Z")) =
        String.mk sl ++ ("+00:00") := by
      show String.mk (replaceZwithOffsetList (sl ++ ('Z' :: []))) = _
      rw [replaceZ_append, replaceZ_of_not_contains sl hz]
      rfl
    simp only [format_ohlcv, List.mapM_cons, List.mapM_nil, h1, h2]
  · intro dt lo1 lo2 hoff
    unfold pyTimestampMillis pyTimestampMicro
    rw [hoff]
    simp only [Option.getD_some]

/-- Concrete instance of C9's theorem at the spec's example instant: the
`+00:00` form and the `Z` form of midnight 2021-01-01 produce identical
normalized output under a non-UTC local zone (UTC+5). -/
theorem C9_offset_instead_of_Z_witness :
    format_ohlcv 300
        [⟨"2021-01-01T00:00:00.000" ++ "+00:00", JVal.jint 1, JVal.jint 2,
          JVal.jint 3, JVal.jint 4, JVal.jint 5⟩] =
      format_ohlcv 300
        [⟨"2021-01-01T00:00:00.000" ++ "Z", JVal.jint 1, JVal.jint 2,
          JVal.jint 3, JVal.jint 4, JVal.jint 5⟩] :=
  (C9_offset_instead_of_Z_equivalent ("2021-01-01T00:00:00.000") (by decide)
    300 (JVal.jint 1) (JVal.jint 2) (JVal.jint 3) (JVal.jint 4)
    (JVal.jint 5)).1

/-- C10: `post_order` puts a `price` field in the body for every
`ord_type`, `'Market'` included; `place_market_order` is the body-building
code path that omits it. -/
theorem C10_post_order_price_unconditional (symbol : String) (order_qty : Int)
    (price : JVal) (side ord_type : String) :
    hasField (post_order_body symbol order_qty price side ord_type) ("price") = true ∧
    hasField (post_order_body symbol order_qty price side ("Market")) ("price") = true ∧
    hasField (place_market_order_body symbol order_qty side) ("price") = false :=
  ⟨rfl, rfl, rfl⟩
